import Mathlib

/-!
# Verification of the vidybot download-orchestration core

Shallow embedding of the Go sources of the repository:

* `internal/utils/retry.go`   — `RetryWithContext`, the bounded
  exponential-backoff retry executor;
* `internal/downloader/downloader.go.bak` — `Download` (the staged
  pipeline), `downloadPrimaryVideo`, `getVideoDuration`,
  `CleanupDownloads`;
* the rate limiter (`RateLimiter.Allow`, `allowRedis`, `allowMemory`).

Conventions of the embedding:

* Go `time.Duration` values (int64 nanoseconds) are embedded as `ℤ`;
  wall-clock instants are also `ℤ` (the unit is irrelevant, only
  differences are compared).
* Go `float64` arithmetic on durations
  (`time.Duration(float64(wait) * options.Multiplier)`) is embedded as
  exact rational arithmetic followed by truncation toward zero, which is
  what the Go conversion back to `time.Duration` performs.
* A Go `context.Context` is embedded by its cancellation instant:
  `none` is a context that is never cancelled, `some c` a context whose
  `Done` channel is closed from instant `c` on.  `select` between
  `time.After(wait)` and `ctx.Done()` is resolved in favour of the
  timer unless the cancellation fires strictly before the wait elapses.
* External effects (running `yt-dlp` / `ffmpeg` / `aria2c`, `os.Stat`,
  Redis calls, directory reads) are embedded as oracles: the outcome
  each call would produce is a parameter of the model.  Go `error`
  values from such calls are embedded as `ℕ` codes (`Option ℕ`:
  `none` = nil error).
-/

/-! ## Retry executor (`internal/utils/retry.go`) -/

/-- The error values `RetryWithContext` can return, mirroring the three
`fmt.Errorf` sites: the max-retries error wrapping the last failure, the
cancellation error from the pre-wait context check, and the cancellation
error from the wait `select`. -/
inductive RetryErr where
  | exhausted (maxRetries : ℤ) (last : ℕ)
  | cancelledRetry
  | cancelledWait
  deriving Repr, DecidableEq

/-- The result of a `RetryWithContext` run, instrumented with the number
of times the operation was invoked. -/
inductive RetryOutcome where
  | ok (calls : ℕ)
  | failed (e : RetryErr) (calls : ℕ)
  deriving Repr, DecidableEq

/-- `RetryOptions` of retry.go (the `Logger` field, used only for
logging, is omitted).  `maxRetries` is a Go `int` and may be negative;
waits are durations in nanoseconds; `multiplier` is the `float64`
growth factor, embedded as a rational. -/
structure RetryOptions where
  maxRetries : ℤ
  initialWait : ℤ
  maxWait : ℤ
  multiplier : ℚ
  deriving Repr, DecidableEq

/-- `DefaultRetryOptions` of retry.go. -/
def defaultRetryOptions : RetryOptions :=
  { maxRetries := 3, initialWait := 1000000000,
    maxWait := 30000000000, multiplier := 2 }

/-- Whether `ctx.Done()` is already closed at instant `t` (the
non-blocking `select ... default` check). -/
def ctxDone : Option ℤ → ℤ → Bool
  | none, _ => false
  | some c, t => c ≤ t

/-- Whether, in the `select` over `time.After(wait)` and `ctx.Done()`
entered at instant `t`, the cancellation fires strictly before the wait
completes. -/
def cancelsDuringWait : Option ℤ → ℤ → ℤ → Bool
  | none, _, _ => false
  | some c, t, w => c < t + w

/-- Truncation of a rational toward zero: the rounding performed by
Go's conversion from `float64` back to `time.Duration`. -/
def truncToZero (q : ℚ) : ℤ :=
  Int.tdiv q.num (q.den : ℤ)

/-- One backoff update of retry.go:
`wait = time.Duration(float64(wait) * options.Multiplier)` followed by
the clamp `if wait > options.MaxWait { wait = options.MaxWait }`. -/
def nextWait (w : ℤ) (m : ℚ) (maxW : ℤ) : ℤ :=
  min (truncToZero ((w : ℚ) * m)) maxW

/-- A `RetryWithContext` run: its outcome and the list of inter-attempt
waits that ran to completion, in order. -/
structure RetryResult where
  outcome : RetryOutcome
  waits : List ℤ
  deriving Repr, DecidableEq

/-- The body of retry.go's `for attempt := 0; attempt <= MaxRetries`
loop.  `remaining` is `MaxRetries - attempt`, `idx` the index of the
invocation about to run, `wait` the current backoff duration, `t` the
current instant, `ws` the waits completed so far.  `fn i` is the error
returned by the `i`-th invocation of the operation (`none` = success). -/
def retryLoop (fn : ℕ → Option ℕ) (tc : Option ℤ) (m : ℚ) (maxW maxR : ℤ) :
    ℕ → ℕ → ℤ → ℤ → List ℤ → RetryResult
  | remaining, idx, wait, t, ws =>
    match fn idx with
    | none => ⟨.ok (idx + 1), ws⟩
    | some e =>
      match remaining with
      | 0 => ⟨.failed (.exhausted maxR e) (idx + 1), ws⟩
      | r + 1 =>
        if ctxDone tc t then ⟨.failed .cancelledRetry (idx + 1), ws⟩
        else if cancelsDuringWait tc t wait then
          ⟨.failed .cancelledWait (idx + 1), ws⟩
        else
          retryLoop fn tc m maxW maxR r (idx + 1)
            (nextWait wait m maxW) (t + wait) (ws ++ [wait])

/-- `RetryWithContext` of retry.go.  A negative `MaxRetries` makes the
loop body never execute, so the function returns the zero-valued `err`
(nil) without invoking the operation.  Time starts at instant `0`. -/
def RetryWithContext (tc : Option ℤ) (fn : ℕ → Option ℕ)
    (options : RetryOptions) : RetryResult :=
  if options.maxRetries < 0 then ⟨.ok 0, []⟩
  else
    retryLoop fn tc options.multiplier options.maxWait options.maxRetries
      options.maxRetries.toNat 0 options.initialWait 0 []

/-- The number of operation invocations recorded in an outcome. -/
def RetryOutcome.calls : RetryOutcome → ℕ
  | .ok n => n
  | .failed _ n => n

/-- The Go `error` value corresponding to an outcome (`none` = nil). -/
def RetryOutcome.errOf : RetryOutcome → Option RetryErr
  | .ok _ => none
  | .failed e _ => some e

/-- Whether an outcome is one of the two cancellation errors (as
opposed to nil or the max-retries error). -/
def RetryOutcome.isCancellation : RetryOutcome → Bool
  | .failed .cancelledRetry _ => true
  | .failed .cancelledWait _ => true
  | _ => false

/-- The sequence of waits retry.go performs on a run that keeps
failing: `waitSeq 0` is the wait before retry attempt 1 (the initial
wait, uncapped), and each later wait is the backoff update of the
previous one. -/
def waitSeq (init : ℤ) (m : ℚ) (maxW : ℤ) : ℕ → ℤ
  | 0 => init
  | k + 1 => nextWait (waitSeq init m maxW k) m maxW

/-- The waits a failing run performs, starting from current backoff
duration `w`: `r` entries, each obtained from the previous by the
backoff update. -/
def waitList (w : ℤ) (m : ℚ) (maxW : ℤ) : ℕ → List ℤ
  | 0 => []
  | r + 1 => w :: waitList (nextWait w m maxW) m maxW r

theorem retryLoop_always_fails (fn : ℕ → Option ℕ) (errs : ℕ → ℕ)
    (h : ∀ i, fn i = some (errs i)) (m : ℚ) (maxW maxR : ℤ) :
    ∀ (r idx : ℕ) (w t : ℤ) (ws : List ℤ),
      retryLoop fn none m maxW maxR r idx w t ws
        = ⟨.failed (.exhausted maxR (errs (idx + r))) (idx + r + 1),
           ws ++ waitList w m maxW r⟩ := by
  intro r
  induction r with
  | zero =>
    intro idx w t ws
    simp [retryLoop, h idx, waitList]
  | succ r ih =>
    intro idx w t ws
    rw [retryLoop]
    simp only [h idx, ctxDone, cancelsDuringWait, Bool.false_eq_true, if_false]
    rw [ih (idx + 1) (nextWait w m maxW) (t + w) (ws ++ [w])]
    have e1 : idx + 1 + r = idx + (r + 1) := by omega
    rw [e1, waitList]
    simp [List.append_assoc]

theorem waitList_eq_waitSeq (init : ℤ) (m : ℚ) (maxW : ℤ) :
    ∀ (r j : ℕ),
      waitList (waitSeq init m maxW j) m maxW r
        = (List.range r).map (fun k => waitSeq init m maxW (j + k)) := by
  intro r
  induction r with
  | zero => intro j; simp [waitList]
  | succ r ih =>
    intro j
    rw [waitList]
    have h1 : nextWait (waitSeq init m maxW j) m maxW = waitSeq init m maxW (j + 1) := rfl
    rw [h1, ih (j + 1), List.range_succ_eq_map]
    simp [List.map_map, Function.comp]
    intro a _
    congr 1
    omega

theorem retryWithContext_always_fails (fn : ℕ → Option ℕ) (errs : ℕ → ℕ)
    (h : ∀ i, fn i = some (errs i)) (n : ℕ) (iw mw : ℤ) (m : ℚ) :
    RetryWithContext none fn ⟨(n : ℤ), iw, mw, m⟩
      = ⟨.failed (.exhausted (n : ℤ) (errs n)) (n + 1), waitList iw m mw n⟩ := by
  rw [RetryWithContext]
  simp only [Int.toNat_natCast]
  rw [if_neg (by omega)]
  rw [retryLoop_always_fails fn errs h m mw (n : ℤ) n 0 iw 0 []]
  simp

/-- C2: with `MaxRetries = n ≥ 0` and an operation failing on every
invocation, `RetryWithContext` under a never-cancelled context invokes
the operation exactly `n + 1` times and returns the max-retries error
wrapping the failure of the last invocation. -/
theorem retry_exhausts_after_n_plus_one_calls (fn : ℕ → Option ℕ)
    (errs : ℕ → ℕ) (h : ∀ i, fn i = some (errs i)) (n : ℕ) (iw mw : ℤ)
    (m : ℚ) :
    (RetryWithContext none fn ⟨(n : ℤ), iw, mw, m⟩).outcome
      = .failed (.exhausted (n : ℤ) (errs n)) (n + 1) := by
  rw [retryWithContext_always_fails fn errs h n iw mw m]

/-- Witness for C2 at `n = 2` and an operation that always fails with
error code 5: three invocations, then the max-retries error wrapping
code 5. -/
theorem retry_exhausts_after_n_plus_one_calls_witness :
    (RetryWithContext none (fun _ => some 5) ⟨(2 : ℤ), 1, 10, 2⟩).outcome
      = .failed (.exhausted 2 5) 3 :=
  retry_exhausts_after_n_plus_one_calls (fun _ => some 5) (fun _ => 5)
    (fun _ => rfl) 2 1 10 2

/-- C10: with a negative `MaxRetries`, the `attempt <= MaxRetries` loop
body never executes, so `RetryWithContext` returns the zero-valued
(nil) error without ever invoking the operation. -/
theorem retry_negative_budget_skips_operation (tc : Option ℤ)
    (fn : ℕ → Option ℕ) (r : ℤ) (hr : r < 0) (iw mw : ℤ) (m : ℚ) :
    RetryWithContext tc fn ⟨r, iw, mw, m⟩ = ⟨.ok 0, []⟩ := by
  rw [RetryWithContext, if_pos hr]

/-- Witness for C10 at `MaxRetries = -1` and an operation that would
always fail if it were ever invoked. -/
theorem retry_negative_budget_skips_operation_witness :
    RetryWithContext none (fun _ => some 9) ⟨(-1 : ℤ), 1, 10, 2⟩
      = ⟨.ok 0, []⟩ :=
  retry_negative_budget_skips_operation none (fun _ => some 9) (-1)
    (by decide) 1 10 2

theorem truncToZero_intCast (z : ℤ) : truncToZero (z : ℚ) = z := by
  simp [truncToZero, Rat.num_intCast, Rat.den_intCast]

theorem nextWait_intCast (w c mw : ℤ) :
    nextWait w (c : ℚ) mw = min (w * c) mw := by
  rw [nextWait, ← Int.cast_mul, truncToZero_intCast]

theorem waitSeq_closed_form (iw mw c : ℤ) (h0 : 0 ≤ iw) (h1 : iw ≤ mw)
    (hc : 1 ≤ c) : ∀ k, waitSeq iw (c : ℚ) mw k = min (iw * c ^ k) mw := by
  intro k
  induction k with
  | zero => simp [waitSeq, min_eq_left h1]
  | succ k ih =>
    rw [waitSeq, nextWait_intCast, ih]
    rcases le_or_lt (iw * c ^ k) mw with hle | hlt
    · rw [min_eq_left hle, pow_succ, ← mul_assoc]
    · rw [min_eq_right hlt.le]
      have hmw : 0 ≤ mw := le_trans h0 h1
      have h2 : mw ≤ mw * c := le_mul_of_one_le_right hmw hc
      have h5 : iw * c ^ k ≤ iw * c ^ (k + 1) :=
        mul_le_mul_of_nonneg_left (pow_le_pow_right₀ hc (by omega)) h0
      rw [min_eq_right h2, min_eq_right (by omega)]

/-- C5 counterexample: take `initialDelay = 2`, `maxDelay = 1`,
`multiplier = 2`, `MaxRetries = 1` and an always-failing operation.
The wait the code performs before retry attempt `k = 1` is the uncapped
`initialDelay = 2`, while the claimed formula
`min(initialDelay * multiplier^(k-1), maxDelay)` gives `1`: the cap is
applied only after a multiplication, never to the initial wait. -/
theorem retry_wait_cap_counterexample :
    (RetryWithContext none (fun _ => some 0) ⟨(1 : ℤ), 2, 1, 2⟩).waits = [2]
      ∧ min ((2 : ℤ) * 2 ^ (1 - 1)) 1 = 1 ∧ (2 : ℤ) ≠ 1 := by
  refine ⟨?_, by decide, by decide⟩
  decide

/-- C5 (amended): in a failing run under a never-cancelled context the
wait before retry attempt `k` equals `waitSeq (k-1)`, where
`waitSeq 0 = initialDelay` (uncapped) and each later entry is
`min(trunc(previous * multiplier), maxDelay)`; and whenever
`0 ≤ initialDelay ≤ maxDelay` and the multiplier is an integer `≥ 1`,
this closed form agrees with the claimed
`min(initialDelay * multiplier^(k-1), maxDelay)`. -/
theorem retry_wait_sequence_amended :
    (∀ (fn : ℕ → Option ℕ) (errs : ℕ → ℕ), (∀ i, fn i = some (errs i)) →
      ∀ (n : ℕ) (iw mw : ℤ) (m : ℚ),
        (RetryWithContext none fn ⟨(n : ℤ), iw, mw, m⟩).waits
          = (List.range n).map (waitSeq iw m mw)) ∧
    (∀ (iw mw c : ℤ), 0 ≤ iw → iw ≤ mw → 1 ≤ c →
      ∀ k, waitSeq iw (c : ℚ) mw k = min (iw * c ^ k) mw) := by
  constructor
  · intro fn errs h n iw mw m
    rw [retryWithContext_always_fails fn errs h n iw mw m]
    show waitList iw m mw n = _
    have h1 := waitList_eq_waitSeq iw m mw n 0
    simpa [waitSeq] using h1
  · exact waitSeq_closed_form

/-- Witness for C5 (amended): a concrete failing run whose waits match
`waitSeq`, and a concrete policy where the closed form evaluates. -/
theorem retry_wait_sequence_amended_witness :
    ((RetryWithContext none (fun _ => some 0) ⟨(2 : ℤ), 1, 30, 2⟩).waits
        = (List.range 2).map (waitSeq 1 2 30)) ∧
    waitSeq 1 ((3 : ℤ) : ℚ) 30 2 = min (1 * 3 ^ 2) 30 :=
  ⟨retry_wait_sequence_amended.1 (fun _ => some 0) (fun _ => 0)
      (fun _ => rfl) 2 1 30 2,
   retry_wait_sequence_amended.2 1 30 3 (by decide) (by decide) (by decide) 2⟩

/-- C6 counterexample: `MaxRetries = 0` and a context already cancelled
at instant 0 — so cancelled strictly before any inter-attempt wait
completes (none ever starts).  The operation fails once and
`RetryWithContext` returns the max-retries error, not a cancellation
error: the max-retries check precedes the context check. -/
theorem retry_cancelled_final_attempt_counterexample :
    (RetryWithContext (some 0) (fun _ => some 3) ⟨(0 : ℤ), 5, 30, 2⟩).outcome
        = .failed (.exhausted 0 3) 1
      ∧ (RetryWithContext (some 0) (fun _ => some 3)
          ⟨(0 : ℤ), 5, 30, 2⟩).outcome.isCancellation = false := by
  decide

/-- C6 (amended): when at least one retry remains in the budget
(`MaxRetries ≥ 1`), a context cancelled strictly before the first
inter-attempt wait completes makes `RetryWithContext` return one of the
two cancellation errors (never the max-retries error); only on the
final allowed attempt does the max-retries error win over
cancellation. -/
theorem retry_cancellation_before_first_wait (fn : ℕ → Option ℕ) (e : ℕ)
    (h : fn 0 = some e) (n : ℕ) (hn : 1 ≤ n) (iw mw : ℤ) (m : ℚ) (c : ℤ)
    (hcw : c < iw) :
    (RetryWithContext (some c) fn
        ⟨(n : ℤ), iw, mw, m⟩).outcome.isCancellation = true := by
  obtain ⟨n', rfl⟩ : ∃ n', n = n' + 1 := ⟨n - 1, by omega⟩
  have hw : cancelsDuringWait (some c) 0 iw = true := by
    simp [cancelsDuringWait]
    omega
  rw [RetryWithContext]
  simp only [Int.toNat_natCast]
  rw [if_neg (by omega)]
  rw [retryLoop]
  simp only [h]
  by_cases hc0 : c ≤ 0
  · have hd : ctxDone (some c) 0 = true := by simp [ctxDone, hc0]
    simp [hd, RetryOutcome.isCancellation]
  · have hd : ctxDone (some c) 0 = false := by
      simp [ctxDone]
      omega
    simp [hd, hw, RetryOutcome.isCancellation]

/-- Witness for C6 (amended): budget 1, cancellation at instant 0,
initial wait 5: the run returns a cancellation error. -/
theorem retry_cancellation_before_first_wait_witness :
    (RetryWithContext (some 0) (fun _ => some 3)
        ⟨(1 : ℤ), 5, 30, 2⟩).outcome.isCancellation = true :=
  retry_cancellation_before_first_wait (fun _ => some 3) 3 rfl 1
    (by decide) 5 30 2 0 (by decide)

/-! ## Rate limiter (`RateLimiter` in utils) -/

/-- The per-identifier `counter` of the in-memory backend. -/
structure Counter where
  count : ℤ
  timestamp : ℤ
  deriving Repr, DecidableEq

/-- Map update for the `counters` map. -/
def updateCounter (cs : String → Option Counter) (id : String)
    (c : Counter) : String → Option Counter :=
  fun x => if x = id then some c else cs x

/-- `allowMemory`: in-memory admission.  Returns the decision and the
updated counters map.  Mirrors the source: reset to count 1 when the
counter is missing or the window has elapsed (strict `>`), deny when
the count has reached `requestsMax`, otherwise increment, keeping the
original window timestamp. -/
def allowMemory (requestsMax timeWindow : ℤ)
    (counters : String → Option Counter) (now : ℤ) (identifier : String) :
    Bool × (String → Option Counter) :=
  match counters identifier with
  | none => (true, updateCounter counters identifier ⟨1, now⟩)
  | some c =>
    if now - c.timestamp > timeWindow then
      (true, updateCounter counters identifier ⟨1, now⟩)
    else if c.count ≥ requestsMax then (false, counters)
    else (true, updateCounter counters identifier ⟨c.count + 1, c.timestamp⟩)

/-- Oracle for the four Redis calls one `allowRedis` invocation makes:
the error of `ZRemRangeByScore`, the result of `ZCard`, the error of
`ZAdd`, and the error of `Expire` (`none` = the call succeeds). -/
structure RedisOps where
  zRem : Option ℕ
  zCard : Except ℕ ℤ
  zAdd : Option ℕ
  expire : Option ℕ
  deriving Repr

/-- `allowRedis`: distributed admission.  Returns the decision, the
returned Go error, and the list of errors passed to `logger.Error`
(the denial branch logs only a warning, which is not recorded here).
Failures of the removal, count and add calls return `(true, err)`
(fail-open); a failure of the `Expire` call is only logged. -/
def allowRedis (ops : RedisOps) (requestsMax : ℤ) :
    Bool × Option ℕ × List ℕ :=
  match ops.zRem with
  | some e => (true, some e, [e])
  | none =>
    match ops.zCard with
    | .error e => (true, some e, [e])
    | .ok count =>
      if count ≥ requestsMax then (false, none, [])
      else
        match ops.zAdd with
        | some e => (true, some e, [e])
        | none =>
          match ops.expire with
          | some e => (true, none, [e])
          | none => (true, none, [])

/-- `RateLimiter.Allow`: disabled limiters always admit; otherwise the
identifier collapses to `"global"` when per-user limiting is off, and
the decision is delegated to the Redis backend when a client is
configured (`redis = some ops`), to the in-memory backend otherwise.
Returns `((allowed, error), counters)`. -/
def Allow (enabled userLimit : Bool) (redis : Option RedisOps)
    (requestsMax timeWindow : ℤ) (counters : String → Option Counter)
    (now : ℤ) (identifier : String) :
    (Bool × Option ℕ) × (String → Option Counter) :=
  if !enabled then ((true, none), counters)
  else
    let id := if !userLimit then "global" else identifier
    match redis with
    | some ops =>
      let r := allowRedis ops requestsMax
      ((r.1, r.2.1), counters)
    | none =>
      let r := allowMemory requestsMax timeWindow counters now id
      ((r.1, none), r.2)

/-- A sequence of `Allow` calls for one identifier at the given
instants, threading the counters map; returns the `(allowed, error)`
pairs in order. -/
def allowRuns (requestsMax timeWindow : ℤ) (id : String) :
    List ℤ → (String → Option Counter) → List (Bool × Option ℕ)
  | [], _ => []
  | t :: ts, cs =>
    let r := Allow true true none requestsMax timeWindow cs t id
    r.1 :: allowRuns requestsMax timeWindow id ts r.2

/-- C7: with the rate limiter enabled, no Redis client configured,
`requestsMax = 3` and a 60-second window, four successive `Allow`
calls for the same identifier, all within 60 seconds of the first and
starting from an empty counters map, return
`true, true, true, false`, each with a nil error. -/
theorem inmemory_rate_admission (id : String) (t1 t2 t3 t4 : ℤ)
    (_h12 : t1 ≤ t2) (h23 : t2 ≤ t3) (h34 : t3 ≤ t4) (hw : t4 - t1 ≤ 60) :
    allowRuns 3 60 id [t1, t2, t3, t4] (fun _ => none)
      = [(true, none), (true, none), (true, none), (false, none)] := by
  have hA : ¬(t2 - t1 > 60) := by omega
  have hB : ¬(t3 - t1 > 60) := by omega
  have hC : ¬(t4 - t1 > 60) := by omega
  have hn1 : ¬((1 : ℤ) ≥ 3) := by decide
  have hn2 : ¬((2 : ℤ) ≥ 3) := by decide
  have hn3 : ((3 : ℤ) ≥ 3) := by decide
  simp [allowRuns, Allow, allowMemory, updateCounter, hA, hB, hC,
    hn1, hn2, hn3]

/-- Witness for C7 at identifier `"u"` and instants 0, 10, 20, 30. -/
theorem inmemory_rate_admission_witness :
    allowRuns 3 60 "u" [0, 10, 20, 30] (fun _ => none)
      = [(true, none), (true, none), (true, none), (false, none)] :=
  inmemory_rate_admission "u" 0 10 20 30 (by decide) (by decide)
    (by decide) (by decide)

/-- A Redis-call oracle where only the `Expire` call fails. -/
def opsExpireFail : RedisOps := ⟨none, .ok 0, none, some 7⟩

/-- C8 counterexample: in distributed mode, when the `Expire` call —
a backend operation performed during `Allow` — fails, `Allow` returns
`true` with a **nil** error (the failure is only logged), so a backend
failure does not always come with a non-nil returned error. -/
theorem redis_failopen_counterexample :
    (Allow true true (some opsExpireFail) 3 60 (fun _ => none) 0 "u").1
        = (true, none)
      ∧ opsExpireFail.expire = some 7
      ∧ allowRedis opsExpireFail 3 = (true, none, [7]) := by
  refine ⟨rfl, rfl, ?_⟩
  decide

/-- C8 (amended): a failure of the marker-removal, count, or marker-add
Redis call makes `Allow` fail open, returning `true` with that non-nil
error; a failure of the expiry-setting call is only logged, `Allow`
returning `true` with a nil error; and a `false` decision can only
arise with a nil error, after the removal and count calls succeeded
and the count reached the maximum — never from a backend failure. -/
theorem redis_failopen_amended (ops : RedisOps) (rmax : ℤ) :
    (∀ e, ops.zRem = some e → allowRedis ops rmax = (true, some e, [e])) ∧
    (∀ e, ops.zRem = none → ops.zCard = .error e →
       allowRedis ops rmax = (true, some e, [e])) ∧
    (∀ e cnt, ops.zRem = none → ops.zCard = .ok cnt → cnt < rmax →
       ops.zAdd = some e → allowRedis ops rmax = (true, some e, [e])) ∧
    (∀ e cnt, ops.zRem = none → ops.zCard = .ok cnt → cnt < rmax →
       ops.zAdd = none → ops.expire = some e →
       allowRedis ops rmax = (true, none, [e])) ∧
    (∀ err logs, allowRedis ops rmax = (false, err, logs) →
       err = none ∧ logs = [] ∧ ops.zRem = none ∧
         ∃ cnt, ops.zCard = .ok cnt ∧ cnt ≥ rmax) := by
  obtain ⟨zr, zc, za, ze⟩ := ops
  refine ⟨?_, ?_, ?_, ?_, ?_⟩
  · intro e he
    cases he
    rfl
  · intro e hr hc
    cases hr
    cases hc
    rfl
  · intro e cnt hr hc hlt ha
    cases hr; cases hc; cases ha
    simp only [allowRedis]
    rw [if_neg (by omega)]
  · intro e cnt hr hc hlt ha hx
    cases hr; cases hc; cases ha; cases hx
    simp only [allowRedis]
    rw [if_neg (by omega)]
  · intro err logs h
    cases zr with
    | some e => simp [allowRedis] at h
    | none =>
      cases zc with
      | error e => simp [allowRedis] at h
      | ok cnt =>
        by_cases hge : cnt ≥ rmax
        · simp only [allowRedis, if_pos hge] at h
          refine ⟨?_, ?_, rfl, cnt, rfl, hge⟩
          · exact (congrArg (fun p => p.2.1) h).symm
          · exact (congrArg (fun p => p.2.2) h).symm
        · exfalso
          simp only [allowRedis, if_neg hge] at h
          cases za with
          | some e => simp at h
          | none =>
            cases ze with
            | some e => simp at h
            | none => simp at h

/-- Witness for C8 (amended), applied to a run where only the `Expire`
call fails: the decision is `true`, the returned error nil, the
failure logged. -/
theorem redis_failopen_amended_witness :
    allowRedis ⟨none, .ok 0, none, some 7⟩ 3 = (true, none, [7]) :=
  (redis_failopen_amended ⟨none, .ok 0, none, some 7⟩ 3).2.2.2.1 7 0
    rfl rfl (by decide) rfl rfl

/-! ## Download pipeline (`internal/downloader/downloader.go.bak`) -/

/-- `filepath.Join` restricted to the two-component form the pipeline
uses (no cleaning is needed for these literal file names). -/
def filepathJoin (dir file : String) : String := dir ++ "/" ++ file

/-- The `DownloadResult` record.  `errorField` mirrors the `Error`
field of the Go struct, which `Download` never assigns. -/
structure DownloadResult where
  videoPath : String := ""
  videoWithSubPath : String := ""
  audioPath : String := ""
  subtitlePath : String := ""
  hasSubtitle : Bool := false
  fileSize : ℤ := 0
  duration : ℤ := 0
  errorField : Option ℕ := none
  thumbnailPath : String := ""
  deriving Repr, DecidableEq

/-- Oracle for one `getVideoDuration` call: whether the `ffprobe` path
is resolved, the error of the `ffprobe` invocation, and the value the
`Sscanf`-parse of its output yields (`none` = parse failure; the Go
`int(duration)` conversion is already applied). -/
structure DurationProbe where
  ffprobeFound : Bool
  runErr : Option ℕ
  parsed : Option ℤ
  deriving Repr, DecidableEq

/-- `getVideoDuration`: returns 0 when `ffprobe` is missing, when the
invocation fails, or when the output does not parse. -/
def getVideoDuration (p : DurationProbe) : ℤ :=
  if !p.ffprobeFound then 0
  else
    match p.runErr with
    | some _ => 0
    | none =>
      match p.parsed with
      | none => 0
      | some d => d

/-- Oracle for one `Download` run: the outcomes every external effect
would produce.  Per-attempt stage oracles (`ℕ → Option ℕ`) give the
error of the `i`-th invocation of that stage under its retry wrapper;
the primary-video stage is modelled down to its two transfers
(`aria2cTry` / `directTry`) because its internal fallback is in claim
scope, the other stages as whole-invocation oracles.  `subTry` yields
the `(subtitlePath, err)` pair of one `downloadSubtitle` call. -/
structure DownloadEnv where
  mkdirErr : Option ℕ
  thumbTry : ℕ → Option ℕ
  thumbFileExists : Bool
  ytDlpFound : Bool
  aria2cFound : Bool
  aria2cTry : ℕ → Option ℕ
  directTry : ℕ → Option ℕ
  statSize : Option ℤ
  subTry : ℕ → Except ℕ String
  embedTry : ℕ → Option ℕ
  audioTry : ℕ → Option ℕ
  durationProbe : DurationProbe
  extractThumbErr : Option ℕ
  extractedThumbExists : Bool

/-- `downloadPrimaryVideo`, invocation `i`: fails fast when `yt-dlp` or
`aria2c` is unresolved (error code 0); otherwise tries the
aria2c-assisted transfer and, on failure, falls back once to the direct
transfer, whose error it wraps and returns if that also fails. -/
def downloadPrimaryVideo (env : DownloadEnv) (i : ℕ) : Option ℕ :=
  if !env.ytDlpFound || !env.aria2cFound then some 0
  else
    match env.aria2cTry i with
    | none => none
    | some _ =>
      match env.directTry i with
      | none => none
      | some e => some e

/-- The errors `Download` can return: the wrapped `os.MkdirAll` error,
or the wrapped failure of the primary-video stage after its retries. -/
inductive DownloadErr where
  | mkdirFailed (e : ℕ)
  | primaryFailed (maxRetries : ℤ) (e : RetryErr)
  deriving Repr, DecidableEq

/-- The Go error a retried stage yields: `RetryWithContext` applied to
the stage's per-attempt oracle under a never-cancelled context (the
pipeline claims do not involve mid-run cancellation). -/
def stageErr (fn : ℕ → Option ℕ) (opts : RetryOptions) : Option RetryErr :=
  (RetryWithContext none fn opts).outcome.errOf

/-- The loop of `RetryWithContext` applied to the subtitle closure,
which also records the `subtitlePath` result of each call; the
(never-cancelled) context checks and waits are dropped since they do
not affect the outcome. -/
def subtitleLoop (fn : ℕ → Except ℕ String) (maxR : ℤ) :
    ℕ → ℕ → Except RetryErr String
  | remaining, idx =>
    match fn idx with
    | .ok p => .ok p
    | .error e =>
      match remaining with
      | 0 => .error (.exhausted maxR e)
      | r + 1 => subtitleLoop fn maxR r (idx + 1)

/-- The retried subtitle stage: on success the `subtitlePath` assigned
by the successful call, on exhaustion the max-retries error.  With a
negative budget the loop never runs and `subtitlePath` keeps its
zero value `""`. -/
def subtitleStage (fn : ℕ → Except ℕ String) (opts : RetryOptions) :
    Except RetryErr String :=
  if opts.maxRetries < 0 then .ok ""
  else subtitleLoop fn opts.maxRetries opts.maxRetries.toNat 0

/-- Stage 1 (thumbnail fetch): on success, the thumbnail path is set
only if the file exists afterwards; on failure the run proceeds with an
empty record. -/
def thumbnailStage (dp : String) (opts : RetryOptions) (env : DownloadEnv) :
    DownloadResult :=
  match stageErr env.thumbTry opts with
  | some _ => {}
  | none =>
    if env.thumbFileExists then { thumbnailPath := filepathJoin dp "thumbnail.png" }
    else {}

/-- The `os.Stat` call on the primary video: the file size is set
only when the call succeeds (`statSize = some s`). -/
def statStage (env : DownloadEnv) (r : DownloadResult) : DownloadResult :=
  match env.statSize with
  | some s => { r with fileSize := s }
  | none => r

/-- Stages 3 and 4 (subtitle fetch and embedding): on subtitle failure
or an empty subtitle path the record is unchanged; otherwise the
subtitle fields are set and the embedded-video path is added only if
the embedding stage succeeds. -/
def subtitleStages (dp : String) (opts : RetryOptions) (env : DownloadEnv)
    (r : DownloadResult) : DownloadResult :=
  match subtitleStage env.subTry opts with
  | .error _ => r
  | .ok subtitlePath =>
    if subtitlePath ≠ "" then
      let rA := { r with subtitlePath := subtitlePath, hasSubtitle := true }
      match stageErr env.embedTry opts with
      | some _ => rA
      | none => { rA with videoWithSubPath := filepathJoin dp "video_final.mp4" }
    else r

/-- Stage 5 (audio extraction): sets the audio path only on success. -/
def audioStage (dp : String) (opts : RetryOptions) (env : DownloadEnv)
    (r : DownloadResult) : DownloadResult :=
  match stageErr env.audioTry opts with
  | some _ => r
  | none => { r with audioPath := filepathJoin dp "audio.mp3" }

/-- Stage 7 (thumbnail fallback): only when stage 1 produced no
thumbnail and a video path exists; on extraction success the path is
set only if the file exists afterwards. -/
def thumbnailFallbackStage (dp : String) (env : DownloadEnv)
    (r : DownloadResult) : DownloadResult :=
  if r.thumbnailPath = "" ∧ r.videoPath ≠ "" then
    match env.extractThumbErr with
    | some _ => r
    | none =>
      if env.extractedThumbExists then
        { r with thumbnailPath := filepathJoin dp "thumbnail.png" }
      else r
  else r

/-- `Download`, composed exactly in source order: directory creation,
stage 1, the critical stage 2 (the only post-creation error exit),
`os.Stat` for the file size, stages 3–5, the duration probe, and the
thumbnail fallback.  `dp` is the per-run download directory. -/
def Download (dp : String) (opts : RetryOptions) (env : DownloadEnv) :
    Option DownloadResult × Option DownloadErr :=
  match env.mkdirErr with
  | some e => (none, some (.mkdirFailed e))
  | none =>
    let r1 := thumbnailStage dp opts env
    match stageErr (downloadPrimaryVideo env) opts with
    | some e => (none, some (.primaryFailed opts.maxRetries e))
    | none =>
      let r2 := { r1 with videoPath := filepathJoin dp "video_base.mp4" }
      let r3 := statStage env r2
      let r4 := subtitleStages dp opts env r3
      let r5 := audioStage dp opts env r4
      let r6 := { r5 with duration := getVideoDuration env.durationProbe }
      (some (thumbnailFallbackStage dp env r6), none)

@[simp] theorem thumbnailStage_hasSubtitle (dp : String) (opts : RetryOptions)
    (env : DownloadEnv) : (thumbnailStage dp opts env).hasSubtitle = false := by
  unfold thumbnailStage
  split
  · rfl
  · split <;> rfl

@[simp] theorem thumbnailStage_videoWithSubPath (dp : String)
    (opts : RetryOptions) (env : DownloadEnv) :
    (thumbnailStage dp opts env).videoWithSubPath = "" := by
  unfold thumbnailStage
  split
  · rfl
  · split <;> rfl

@[simp] theorem statStage_hasSubtitle (env : DownloadEnv) (r : DownloadResult) :
    (statStage env r).hasSubtitle = r.hasSubtitle := by
  unfold statStage
  split <;> rfl

@[simp] theorem statStage_videoWithSubPath (env : DownloadEnv)
    (r : DownloadResult) :
    (statStage env r).videoWithSubPath = r.videoWithSubPath := by
  unfold statStage
  split <;> rfl

@[simp] theorem statStage_videoPath (env : DownloadEnv) (r : DownloadResult) :
    (statStage env r).videoPath = r.videoPath := by
  unfold statStage
  split <;> rfl

@[simp] theorem audioStage_hasSubtitle (dp : String) (opts : RetryOptions)
    (env : DownloadEnv) (r : DownloadResult) :
    (audioStage dp opts env r).hasSubtitle = r.hasSubtitle := by
  unfold audioStage
  split <;> rfl

@[simp] theorem audioStage_videoWithSubPath (dp : String) (opts : RetryOptions)
    (env : DownloadEnv) (r : DownloadResult) :
    (audioStage dp opts env r).videoWithSubPath = r.videoWithSubPath := by
  unfold audioStage
  split <;> rfl

@[simp] theorem audioStage_videoPath (dp : String) (opts : RetryOptions)
    (env : DownloadEnv) (r : DownloadResult) :
    (audioStage dp opts env r).videoPath = r.videoPath := by
  unfold audioStage
  split <;> rfl

@[simp] theorem thumbnailFallbackStage_hasSubtitle (dp : String)
    (env : DownloadEnv) (r : DownloadResult) :
    (thumbnailFallbackStage dp env r).hasSubtitle = r.hasSubtitle := by
  unfold thumbnailFallbackStage
  split
  · split
    · rfl
    · split <;> rfl
  · rfl

@[simp] theorem thumbnailFallbackStage_videoWithSubPath (dp : String)
    (env : DownloadEnv) (r : DownloadResult) :
    (thumbnailFallbackStage dp env r).videoWithSubPath = r.videoWithSubPath := by
  unfold thumbnailFallbackStage
  split
  · split
    · rfl
    · split <;> rfl
  · rfl

@[simp] theorem thumbnailFallbackStage_videoPath (dp : String)
    (env : DownloadEnv) (r : DownloadResult) :
    (thumbnailFallbackStage dp env r).videoPath = r.videoPath := by
  unfold thumbnailFallbackStage
  split
  · split
    · rfl
    · split <;> rfl
  · rfl

theorem subtitleStages_error (dp : String) (opts : RetryOptions)
    (env : DownloadEnv) (r : DownloadResult) (er : RetryErr)
    (h : subtitleStage env.subTry opts = .error er) :
    subtitleStages dp opts env r = r := by
  unfold subtitleStages
  rw [h]

theorem filepathJoin_ne_empty (d f : String) : filepathJoin d f ≠ "" := by
  intro h
  have hl := congrArg String.length h
  simp [filepathJoin, String.length_append] at hl
  exact absurd hl.1.2 (by decide)

/-- A run environment in which directory creation fails (error code 4)
while every stage, including the critical one, would succeed. -/
def envMkdirFail : DownloadEnv :=
  { mkdirErr := some 4, thumbTry := fun _ => none, thumbFileExists := true,
    ytDlpFound := true, aria2cFound := true, aria2cTry := fun _ => none,
    directTry := fun _ => none, statSize := some 100,
    subTry := fun _ => .ok "", embedTry := fun _ => none,
    audioTry := fun _ => none, durationProbe := ⟨true, none, some 12⟩,
    extractThumbErr := none, extractedThumbExists := true }

/-- The same environment with directory creation succeeding. -/
def envAllOk : DownloadEnv := { envMkdirFail with mkdirErr := none }

/-- C1 counterexample: when `os.MkdirAll` for the run directory fails,
`Download` returns a nil result and a non-nil error even though the
critical primary-video stage (which here would succeed) never fails —
so stage-2 failure is not the only condition under which `Download`
returns an error. -/
theorem download_mkdir_error_counterexample :
    Download "d" defaultRetryOptions envMkdirFail
        = (none, some (.mkdirFailed 4))
      ∧ stageErr (downloadPrimaryVideo envMkdirFail) defaultRetryOptions
        = none := by
  exact ⟨rfl, rfl⟩

/-- C1 (amended): once the run directory has been created successfully,
`Download` returns an error exactly when the retried critical
primary-video stage fails — in which case the error wraps that stage's
failure — and otherwise returns a non-nil bundle with a nil error,
whatever the other stages do. -/
theorem download_error_iff_primary (dp : String) (opts : RetryOptions)
    (env : DownloadEnv) (hmk : env.mkdirErr = none) :
    (∀ e, stageErr (downloadPrimaryVideo env) opts = some e →
       Download dp opts env = (none, some (.primaryFailed opts.maxRetries e))) ∧
    (stageErr (downloadPrimaryVideo env) opts = none →
       ∃ r, Download dp opts env = (some r, none)) := by
  constructor
  · intro e hp
    simp only [Download, hmk, hp]
  · intro hp
    simp only [Download, hmk, hp]
    exact ⟨_, rfl⟩

/-- Witness for C1 (amended): with directory creation and every stage
succeeding, `Download` returns a bundle and a nil error. -/
theorem download_error_iff_primary_witness :
    ∃ r, Download "d" defaultRetryOptions envAllOk = (some r, none) :=
  (download_error_iff_primary "d" defaultRetryOptions envAllOk rfl).2 rfl

/-- C3: when both transfers of the critical stage — the aria2c-assisted
one and the single direct fallback — fail on every retried invocation,
`Download` returns a terminal error wrapping the stage failure and no
artifact bundle. -/
theorem download_double_transfer_failure (dp : String) (opts : RetryOptions)
    (env : DownloadEnv) (hmk : env.mkdirErr = none)
    (hr : 0 ≤ opts.maxRetries)
    (hy : env.ytDlpFound = true) (ha : env.aria2cFound = true)
    (h2 : ∀ i, env.aria2cTry i ≠ none) (h3 : ∀ i, env.directTry i ≠ none) :
    ∃ e, Download dp opts env
      = (none, some (.primaryFailed opts.maxRetries e)) := by
  have hfn : ∀ i, downloadPrimaryVideo env i
      = some ((env.directTry i).getD 0) := by
    intro i
    unfold downloadPrimaryVideo
    rw [hy, ha]
    cases hA : env.aria2cTry i with
    | none => exact absurd hA (h2 i)
    | some a =>
      cases hB : env.directTry i with
      | none => exact absurd hB (h3 i)
      | some b => simp
  obtain ⟨mr, iw, mw, m⟩ := opts
  simp only at hr ⊢
  obtain ⟨n, rfl⟩ : ∃ n : ℕ, mr = (n : ℤ) :=
    ⟨mr.toNat, (Int.toNat_of_nonneg hr).symm⟩
  have hstage : stageErr (downloadPrimaryVideo env) ⟨(n : ℤ), iw, mw, m⟩
      = some (.exhausted (n : ℤ) ((env.directTry n).getD 0)) := by
    unfold stageErr
    rw [retryWithContext_always_fails (downloadPrimaryVideo env)
      (fun i => (env.directTry i).getD 0) hfn n iw mw m]
    rfl
  refine ⟨.exhausted (n : ℤ) ((env.directTry n).getD 0), ?_⟩
  simp only [Download, hmk, hstage]

/-- A run environment where both transfers of the critical stage fail
on every attempt and every other stage would succeed. -/
def envTransfersFail : DownloadEnv :=
  { mkdirErr := none, thumbTry := fun _ => none, thumbFileExists := false,
    ytDlpFound := true, aria2cFound := true, aria2cTry := fun _ => some 1,
    directTry := fun _ => some 2, statSize := none,
    subTry := fun _ => .ok "", embedTry := fun _ => none,
    audioTry := fun _ => none, durationProbe := ⟨false, none, none⟩,
    extractThumbErr := none, extractedThumbExists := false }

/-- Witness for C3: both transfers failing on every attempt under the
default policy produces a terminal error and no bundle. -/
theorem download_double_transfer_failure_witness :
    ∃ e, Download "d" defaultRetryOptions envTransfersFail
      = (none, some (.primaryFailed defaultRetryOptions.maxRetries e)) :=
  download_double_transfer_failure "d" defaultRetryOptions envTransfersFail
    rfl (by decide) rfl rfl (fun _ h => Option.noConfusion h)
    (fun _ h => Option.noConfusion h)

/-- C4: when directory creation and the critical primary-video stage
succeed but the subtitle stage fails after its retries, `Download`
returns a bundle with `HasSubtitle = false`, an empty
`VideoWithSubPath`, and a non-empty `VideoPath` pointing at the
primary video; the embedding stage is never invoked (the run's result
does not depend on its oracle). -/
theorem download_embed_congr (dp : String) (opts : RetryOptions)
    (env : DownloadEnv) (et : ℕ → Option ℕ) (er : RetryErr)
    (hsub : subtitleStage env.subTry opts = .error er) :
    Download dp opts { env with embedTry := et } = Download dp opts env := by
  have hsubst : ∀ r, subtitleStages dp opts env r = r := fun r =>
    subtitleStages_error dp opts env r er hsub
  have hsubst' : ∀ r, subtitleStages dp opts { env with embedTry := et } r
      = r := fun r =>
    subtitleStages_error dp opts { env with embedTry := et } r er hsub
  simp only [Download, hsubst, hsubst']
  rfl

theorem download_subtitle_failure_bundle (dp : String) (opts : RetryOptions)
    (env : DownloadEnv) (hmk : env.mkdirErr = none)
    (hp : stageErr (downloadPrimaryVideo env) opts = none)
    (er : RetryErr) (hsub : subtitleStage env.subTry opts = .error er) :
    ∃ r, Download dp opts env = (some r, none) ∧ r.hasSubtitle = false ∧
      r.videoWithSubPath = "" ∧
      r.videoPath = filepathJoin dp "video_base.mp4" ∧ r.videoPath ≠ "" ∧
      ∀ et, Download dp opts { env with embedTry := et }
        = Download dp opts env := by
  have hemb : ∀ et, Download dp opts { env with embedTry := et }
      = Download dp opts env := fun et =>
    download_embed_congr dp opts env et er hsub
  have hsubst : ∀ r, subtitleStages dp opts env r = r := fun r =>
    subtitleStages_error dp opts env r er hsub
  have hmain : ∃ r, Download dp opts env = (some r, none) ∧
      r.hasSubtitle = false ∧ r.videoWithSubPath = "" ∧
      r.videoPath = filepathJoin dp "video_base.mp4" ∧ r.videoPath ≠ "" := by
    simp only [Download, hmk, hp, hsubst]
    refine ⟨_, rfl, ?_, ?_, ?_, ?_⟩
    · simp
    · simp
    · simp
    · simp [filepathJoin_ne_empty]
  obtain ⟨r, h1, h2, h3, h4, h5⟩ := hmain
  exact ⟨r, h1, h2, h3, h4, h5, hemb⟩

/-- A run environment where every subtitle fetch attempt fails with
error code 2 while directory creation and all other stages succeed. -/
def envSubFail : DownloadEnv :=
  { mkdirErr := none, thumbTry := fun _ => none, thumbFileExists := true,
    ytDlpFound := true, aria2cFound := true, aria2cTry := fun _ => none,
    directTry := fun _ => none, statSize := some 100,
    subTry := fun _ => .error 2, embedTry := fun _ => none,
    audioTry := fun _ => none, durationProbe := ⟨true, none, some 12⟩,
    extractThumbErr := none, extractedThumbExists := true }

/-- Witness for C4: a subtitle stage failing on each of its four
attempts leaves a bundle with no subtitle and the primary video
populated. -/
theorem download_subtitle_failure_bundle_witness :
    ∃ r, Download "d" defaultRetryOptions envSubFail = (some r, none) ∧
      r.hasSubtitle = false ∧ r.videoWithSubPath = "" ∧
      r.videoPath = filepathJoin "d" "video_base.mp4" ∧ r.videoPath ≠ "" ∧
      ∀ et, Download "d" defaultRetryOptions { envSubFail with embedTry := et }
        = Download "d" defaultRetryOptions envSubFail :=
  download_subtitle_failure_bundle "d" defaultRetryOptions envSubFail rfl rfl
    (.exhausted 3 2) rfl

/-! ## Retention sweep (`CleanupDownloads` / `isDirEmpty`) -/

/-- One entry of the artifact root as the sweep sees it: its name,
whether it is a directory, the result of `entry.Info()` (modification
time or an error), the result `isDirEmpty` would report for it, and
the error `os.RemoveAll` would produce if attempted. -/
structure DirEntry where
  name : String
  isDir : Bool
  info : Except ℕ ℤ
  emptyCheck : Except ℕ Bool
  removeErr : Option ℕ
  deriving Repr

/-- The errors `CleanupDownloads` appends to `cleanupErrors`. -/
inductive CleanupErrRecord where
  | infoFailed (name : String) (e : ℕ)
  | emptyCheckFailed (name : String) (e : ℕ)
  | removeFailed (name : String) (e : ℕ)
  deriving Repr, DecidableEq

/-- One iteration of the sweep loop over entry `e`, with
`cutoff = now - maxAge`: skip non-directories; record an `Info()`
failure and continue; for a directory strictly older than the cutoff,
remove it only when the emptiness check succeeds and reports empty
(recording a removal failure), record an emptiness-check error, and
silently skip a non-empty directory.  Returns the removed name (if
any) and the recorded errors. -/
def cleanupStep (cutoff : ℤ) (e : DirEntry) :
    Option String × List CleanupErrRecord :=
  if !e.isDir then (none, [])
  else
    match e.info with
    | .error ie => (none, [.infoFailed e.name ie])
    | .ok mt =>
      if mt < cutoff then
        match e.emptyCheck with
        | .ok true =>
          match e.removeErr with
          | some re => (none, [.removeFailed e.name re])
          | none => (some e.name, [])
        | .ok false => (none, [])
        | .error ce => (none, [.emptyCheckFailed e.name ce])
      else (none, [])

/-- The sweep loop over all entries in order, collecting the removed
directory names and the recorded errors. -/
def cleanupRun (cutoff : ℤ) :
    List DirEntry → List String × List CleanupErrRecord
  | [] => ([], [])
  | e :: rest =>
    let s := cleanupStep cutoff e
    let t := cleanupRun cutoff rest
    (s.1.toList ++ t.1, s.2 ++ t.2)

/-- `CleanupDownloads`: fails only when reading the artifact root
fails; otherwise sweeps every entry (a per-entry error is recorded,
not fatal) and — in the Go code — returns an error exactly when the
recorded error list is non-empty. -/
def CleanupDownloads (readDir : Except ℕ (List DirEntry)) (now maxAge : ℤ) :
    Except ℕ (List String × List CleanupErrRecord) :=
  match readDir with
  | .error e => .error e
  | .ok entries => .ok (cleanupRun (now - maxAge) entries)

theorem cleanupStep_some (cutoff : ℤ) (e : DirEntry) (name : String)
    (h : (cleanupStep cutoff e).1 = some name) :
    e.name = name ∧ e.isDir = true ∧ e.emptyCheck = .ok true ∧
      e.removeErr = none ∧ ∃ mt, e.info = .ok mt ∧ mt < cutoff := by
  obtain ⟨nm, d, info, ec, re⟩ := e
  cases d
  · simp [cleanupStep] at h
  · cases info with
    | error ie => simp [cleanupStep] at h
    | ok mt =>
      by_cases hmt : mt < cutoff
      · cases ec with
        | error ce => simp [cleanupStep, hmt] at h
        | ok b =>
          cases b
          · simp [cleanupStep, hmt] at h
          · cases re with
            | some re' => simp [cleanupStep, hmt] at h
            | none =>
              simp [cleanupStep, hmt] at h
              exact ⟨h, rfl, rfl, rfl, mt, rfl, hmt⟩
      · simp [cleanupStep, hmt] at h

theorem cleanupRun_mem (cutoff : ℤ) :
    ∀ (entries : List DirEntry) (name : String),
      name ∈ (cleanupRun cutoff entries).1 →
      ∃ d ∈ entries, d.name = name ∧ d.emptyCheck = .ok true ∧
        d.removeErr = none ∧ ∃ mt, d.info = .ok mt ∧ mt < cutoff := by
  intro entries
  induction entries with
  | nil =>
    intro name h
    simp [cleanupRun] at h
  | cons e rest ih =>
    intro name h
    simp only [cleanupRun] at h
    rw [List.mem_append] at h
    cases h with
    | inl h1 =>
      have hs : (cleanupStep cutoff e).1 = some name := by
        cases hq : (cleanupStep cutoff e).1 with
        | none =>
          rw [hq] at h1
          simp at h1
        | some x =>
          rw [hq] at h1
          simp at h1
          rw [h1]
      obtain ⟨hn, _, h3, h4, h5⟩ := cleanupStep_some cutoff e name hs
      exact ⟨e, List.mem_cons_self e rest, hn, h3, h4, h5⟩
    | inr h2 =>
      obtain ⟨d, hd, hrest⟩ := ih name h2
      exact ⟨d, List.mem_cons_of_mem e hd, hrest⟩

/-- A directory 10 minutes old (at `now = 10000`s), empty. -/
def sweepRecentDir : DirEntry := ⟨"recent", true, .ok 9400, .ok true, none⟩

/-- A directory 2 hours old whose emptiness check errors (code 5). -/
def sweepCheckErrDir : DirEntry := ⟨"checkerr", true, .ok 2800, .error 5, none⟩

/-- A directory 2 hours old, empty. -/
def sweepOldDir : DirEntry := ⟨"old", true, .ok 2800, .ok true, none⟩

/-- C9: with a 1-hour maximum age, the sweep over directories 10
minutes and 2 hours old (plus one old directory whose emptiness check
errors, placed before the deleted one) removes only the empty 2-hour
directory; the directory with the failing check is left untouched, its
error recorded while the sweep continues past it.  In general a name
is removed only when its entry is an old directory whose emptiness
check succeeded and reported empty — never one whose check errored or
reported non-empty. -/
theorem cleanup_retention_sweep :
    (CleanupDownloads
        (.ok [sweepRecentDir, sweepCheckErrDir, sweepOldDir]) 10000 3600
      = .ok (["old"], [.emptyCheckFailed "checkerr" 5])) ∧
    (∀ (cutoff : ℤ) (entries : List DirEntry) (name : String),
      name ∈ (cleanupRun cutoff entries).1 →
      ∃ d ∈ entries, d.name = name ∧ d.emptyCheck = .ok true ∧
        d.removeErr = none ∧ ∃ mt, d.info = .ok mt ∧ mt < cutoff) :=
  ⟨rfl, cleanupRun_mem⟩

/-- Witness for C9, applied to a sweep that removed `"old"`. -/
theorem cleanup_retention_sweep_witness :
    ∃ d ∈ [sweepOldDir], d.name = "old" ∧ d.emptyCheck = Except.ok true ∧
      d.removeErr = none ∧ ∃ mt, d.info = Except.ok mt ∧ mt < 6400 :=
  cleanup_retention_sweep.2 6400 [sweepOldDir] "old" (by decide)
